import Mathlib

/-!
Shallow embedding of the chef-server REST API (`src/index.js`): a minimal
Express + MongoDB CRUD service over two collections, `users` and `items`.

Modelling choices:
* JavaScript runtime values are modelled by `JSValue` (null, undefined,
  booleans, numbers as rationals, strings, arrays).  JavaScript numbers are
  modelled as `Rat`; `NaN` is not modelled (no claim depends on it).
* MongoDB ObjectIds are modelled as 24-character lowercase hex strings.
  `ObjectId.isValid` on a string accepts exactly 24 hex characters, and the
  `new ObjectId(s)` constructor normalises hex case; server-assigned ids come
  from a per-state counter rendered in hex (`hex24`).
* The database is modelled as in-memory lists inside `ServerState`, with a
  logical clock `now` standing for `new Date()` and `nextOid` for the driver's
  id generator.  `insertOne` appends, `findOne` is first-match, `deleteOne`
  removes the first match, `sort({createdAt:-1})` is a merge sort by the
  descending-`createdAt` comparator, `limit(100)` is `List.take 100`.
* Each route handler becomes a pure function returning its response, the new
  state, and the trace of store operations it performed, so that
  "no store call happened" is directly statable.
-/

/-- JavaScript runtime values as far as the handlers inspect them. -/
inductive JSValue where
  | null
  | undefined
  | bool (b : Bool)
  | num (q : Rat)
  | str (s : String)
  | arr (elems : List JSValue)
deriving Repr

namespace JSValue

/-- Structural equality on `JSValue` (deep equality on arrays). -/
def beq : JSValue → JSValue → Bool
  | .null, .null => true
  | .undefined, .undefined => true
  | .bool a, .bool b => a == b
  | .num a, .num b => a == b
  | .str a, .str b => a == b
  | .arr xs, .arr ys => beqList xs ys
  | _, _ => false
where beqList : List JSValue → List JSValue → Bool
  | [], [] => true
  | x :: xs, y :: ys => beq x y && beqList xs ys
  | _, _ => false

theorem beq_iff_eq : ∀ v w : JSValue, beq v w = true ↔ v = w := by
  intro v
  induction v using JSValue.rec
    (motive_2 := fun l => ∀ m, beq.beqList l m = true ↔ l = m) with
  | null => intro w; cases w <;> simp [beq]
  | undefined => intro w; cases w <;> simp [beq]
  | bool b => intro w; cases w <;> simp [beq]
  | num q => intro w; cases w <;> simp [beq]
  | str s => intro w; cases w <;> simp [beq]
  | arr xs ih => intro w; cases w <;> simp [beq, ih]
  | nil => rename_i m; cases m <;> simp [beq.beqList]
  | cons x xs ihx ihxs => rename_i m; cases m <;> simp [beq.beqList, ihx, ihxs]

instance : DecidableEq JSValue :=
  fun a b => decidable_of_iff (beq a b = true) (beq_iff_eq a b)

/-- JavaScript truthiness: `null`, `undefined`, `false`, `0` and `""` are
falsy; every other value (including any array) is truthy. -/
def truthy : JSValue → Bool
  | .null => false
  | .undefined => false
  | .bool b => b
  | .num q => q != 0
  | .str s => s != ""
  | .arr _ => true

/-- Model of `typeof v === 'number'`. -/
def isNumber : JSValue → Bool
  | .num _ => true
  | _ => false

/-- Model of `Array.isArray(v)`. -/
def isArray : JSValue → Bool
  | .arr _ => true
  | _ => false

/-- Numeric payload of a value known to be a number (`0` otherwise). -/
def getNum : JSValue → Rat
  | .num q => q
  | _ => 0

/-- Array payload of a value, the `Array.isArray(tags) ? tags : []` shape. -/
def arrOrEmpty : JSValue → List JSValue
  | .arr xs => xs
  | _ => []

end JSValue

/-! ## ObjectId model -/

namespace ObjectId

/-- Hex digits accepted by the driver's ObjectId string format. -/
def isHexDigit (c : Char) : Bool :=
  ("0123456789abcdefABCDEF".toList).contains c

/-- Model of `ObjectId.isValid` on a string: exactly 24 hex characters. -/
def isValid (s : String) : Bool :=
  s.toList.length == 24 && s.toList.all isHexDigit

/-- Model of `new ObjectId(s)` for a valid `s`: the driver stores raw bytes,
so two hex strings denote the same id exactly when they agree up to case.
We normalise to lowercase. -/
def norm (s : String) : String :=
  String.mk (s.toList.map Char.toLower)

/-- The lowercase hex digit of value `n` (for `n < 16`). -/
def hexChar (n : Nat) : Char :=
  ("0123456789abcdef".toList).getD n '0'

/-- The 24-character lowercase hex rendering of `n`: the server-assigned id
for counter value `n` (the driver generates fresh 12-byte ids; we model the
generator by the state's counter). -/
def hex24 (n : Nat) : String :=
  String.mk ((List.range 24).map fun i => hexChar (n / 16 ^ (23 - i) % 16))

theorem isHexDigit_hexChar : ∀ k, k < 16 → isHexDigit (hexChar k) = true := by
  decide

theorem toLower_hexChar : ∀ k, k < 16 → (hexChar k).toLower = hexChar k := by
  decide

theorem isValid_hex24 (n : Nat) : isValid (hex24 n) = true := by
  simp only [isValid, Bool.and_eq_true, beq_iff_eq, List.all_eq_true]
  constructor
  · simp [hex24, String.toList, String.length]
  · intro c hc
    simp only [hex24, String.toList, String.mk, List.mem_map,
      List.mem_range] at hc
    obtain ⟨i, -, rfl⟩ := hc
    exact isHexDigit_hexChar _ (Nat.mod_lt _ (by norm_num))

theorem norm_hex24 (n : Nat) : norm (hex24 n) = hex24 n := by
  simp only [norm, hex24, String.toList]
  congr 1
  rw [List.map_map]
  refine List.map_congr_left ?_
  intro i _
  exact toLower_hexChar _ (Nat.mod_lt _ (by norm_num))

end ObjectId

/-! ## Data model -/

/-- A persisted user document (the inserted object plus its driver id). -/
structure StoredUser where
  _id : String
  email : JSValue
  name : JSValue
  role : JSValue
  createdAt : Nat
deriving DecidableEq, Repr

/-- A persisted item document. -/
structure StoredItem where
  _id : String
  name : JSValue
  description : JSValue
  price : Rat
  category : JSValue
  image : JSValue
  badge : JSValue
  badgeColor : JSValue
  isLarge : Bool
  tags : List JSValue
  createdAt : Nat
deriving DecidableEq, Repr

/-- The store plus the server-side generators: id counter and clock. -/
structure ServerState where
  users : List StoredUser
  items : List StoredItem
  nextOid : Nat
  now : Nat
deriving DecidableEq, Repr

/-- Store operations a handler may perform, recorded as a trace. -/
inductive StoreOp where
  | userFindByEmail (email : JSValue)
  | userInsert (u : StoredUser)
  | userFindById (oid : String)
  | userDeleteById (oid : String)
  | userList
  | itemInsert (d : StoredItem)
  | itemFindById (oid : String)
  | itemDeleteById (oid : String)
  | itemList
deriving DecidableEq, Repr

/-- The request body of `POST /api/users` after destructuring: a missing
field destructures to `undefined`. -/
structure UserBody where
  email : JSValue := .undefined
  name : JSValue := .undefined
  role : JSValue := .undefined
deriving DecidableEq, Repr

/-- The request body of `POST /api/items` after destructuring. -/
structure ItemBody where
  name : JSValue := .undefined
  description : JSValue := .undefined
  price : JSValue := .undefined
  category : JSValue := .undefined
  image : JSValue := .undefined
  badge : JSValue := .undefined
  badgeColor : JSValue := .undefined
  isLarge : JSValue := .undefined
  tags : JSValue := .undefined
deriving DecidableEq, Repr

/-! ## Sorting: `.sort({ createdAt: -1 })` -/

/-- The descending-`createdAt` comparator used by the users list. -/
def userDesc (a b : StoredUser) : Bool := b.createdAt ≤ a.createdAt

/-- The descending-`createdAt` comparator used by the items list. -/
def itemDesc (a b : StoredItem) : Bool := b.createdAt ≤ a.createdAt

/-! ## Route handlers -/

/-- Response of `POST /api/users`. -/
inductive UserCreateRes where
  | badRequest
  | conflict
  | created (u : StoredUser)
deriving DecidableEq, Repr

def UserCreateRes.status : UserCreateRes → Nat
  | .badRequest => 400
  | .conflict => 409
  | .created _ => 201

/-- Handler for `POST /api/users`: validate `email`/`name`, reject a
duplicate `email` with 409, otherwise insert `{email, name, role || 'staff',
createdAt}` and answer 201 with the inserted document. -/
def postApiUsers (body : UserBody) (st : ServerState) :
    UserCreateRes × ServerState × List StoreOp :=
  if !body.email.truthy || !body.name.truthy then
    (.badRequest, st, [])
  else
    match st.users.find? (fun u => u.email = body.email) with
    | some _ => (.conflict, st, [.userFindByEmail body.email])
    | none =>
      let u : StoredUser :=
        { _id := ObjectId.hex24 st.nextOid
          email := body.email
          name := body.name
          role := if body.role.truthy then body.role else .str "staff"
          createdAt := st.now }
      (.created u,
       { st with users := st.users ++ [u], nextOid := st.nextOid + 1,
                 now := st.now + 1 },
       [.userFindByEmail body.email, .userInsert u])

/-- Handler for `GET /api/users`: all users, newest first (no cap). -/
def getApiUsers (st : ServerState) : List StoredUser × List StoreOp :=
  (st.users.mergeSort userDesc, [.userList])

/-- Response of a get-by-id route. -/
inductive GetRes (α : Type) where
  | badRequest
  | notFound
  | ok (doc : α)
deriving DecidableEq, Repr

def GetRes.status : GetRes α → Nat
  | .badRequest => 400
  | .notFound => 404
  | .ok _ => 200

/-- Handler for `GET /api/users/:id`. -/
def getApiUserById (id : String) (st : ServerState) :
    GetRes StoredUser × List StoreOp :=
  if !ObjectId.isValid id then (.badRequest, [])
  else
    match st.users.find? (fun u => u._id = ObjectId.norm id) with
    | none => (.notFound, [.userFindById (ObjectId.norm id)])
    | some u => (.ok u, [.userFindById (ObjectId.norm id)])

/-- Response of a delete-by-id route. -/
inductive DeleteRes where
  | badRequest
  | notFound
  | ok (message : String) (deletedId : String)
deriving DecidableEq, Repr

def DeleteRes.status : DeleteRes → Nat
  | .badRequest => 400
  | .notFound => 404
  | .ok _ _ => 200

/-- Handler for `DELETE /api/users/:id`: `deleteOne` removes the first match;
`deletedCount === 0` answers 404. -/
def deleteApiUserById (id : String) (st : ServerState) :
    DeleteRes × ServerState × List StoreOp :=
  if !ObjectId.isValid id then (.badRequest, st, [])
  else
    let oid := ObjectId.norm id
    if st.users.any (fun u => u._id = oid) then
      (.ok "User deleted successfully" id,
       { st with users := st.users.eraseP (fun u => u._id = oid) },
       [.userDeleteById oid])
    else
      (.notFound, st, [.userDeleteById oid])

/-- Handler for `GET /api/items`: newest first, capped at 100. -/
def getApiItems (st : ServerState) : List StoredItem × List StoreOp :=
  ((st.items.mergeSort itemDesc).take 100, [.itemList])

/-- Handler for `GET /api/items/:id`. -/
def getApiItemById (id : String) (st : ServerState) :
    GetRes StoredItem × List StoreOp :=
  if !ObjectId.isValid id then (.badRequest, [])
  else
    match st.items.find? (fun d => d._id = ObjectId.norm id) with
    | none => (.notFound, [.itemFindById (ObjectId.norm id)])
    | some d => (.ok d, [.itemFindById (ObjectId.norm id)])

/-- Handler for `DELETE /api/items/:id`. -/
def deleteApiItemById (id : String) (st : ServerState) :
    DeleteRes × ServerState × List StoreOp :=
  if !ObjectId.isValid id then (.badRequest, st, [])
  else
    let oid := ObjectId.norm id
    if st.items.any (fun d => d._id = oid) then
      (.ok "Item deleted successfully" id,
       { st with items := st.items.eraseP (fun d => d._id = oid) },
       [.itemDeleteById oid])
    else
      (.notFound, st, [.itemDeleteById oid])

/-- Response of `POST /api/items`. -/
inductive ItemCreateRes where
  | badRequest
  | created (d : StoredItem)
deriving DecidableEq, Repr

def ItemCreateRes.status : ItemCreateRes → Nat
  | .badRequest => 400
  | .created _ => 201

/-- Handler for `POST /api/items`: validate `name`, `description` and the
numeric type of `price`, then insert the defaulted document and answer 201
with it. -/
def postApiItems (body : ItemBody) (st : ServerState) :
    ItemCreateRes × ServerState × List StoreOp :=
  if !body.name.truthy || !body.description.truthy || !body.price.isNumber then
    (.badRequest, st, [])
  else
    let d : StoredItem :=
      { _id := ObjectId.hex24 st.nextOid
        name := body.name
        description := body.description
        price := body.price.getNum
        category := if body.category.truthy then body.category
                    else .str "Uncategorized"
        image := if body.image.truthy then body.image else .str ""
        badge := if body.badge.truthy then body.badge else .null
        badgeColor := if body.badgeColor.truthy then body.badgeColor
                      else .null
        isLarge := body.isLarge.truthy
        tags := body.tags.arrOrEmpty
        createdAt := st.now }
    (.created d,
     { st with items := st.items ++ [d], nextOid := st.nextOid + 1,
               now := st.now + 1 },
     [.itemInsert d])

/-! ## Connection guard and CORS configuration -/

/-- Model of `connectToMongo`: given the `isConnected` flag, answer whether
`client.connect()` was invoked and the new flag. -/
def connectToMongo (isConnected : Bool) : Bool × Bool :=
  if !isConnected then (true, true) else (false, isConnected)

/-- Sequential runs of `connectToMongo`: final flag and how many times the
underlying `client.connect()` ran. -/
def runConnectCalls : Nat → Bool → Bool × Nat
  | 0, s => (s, 0)
  | n + 1, s =>
    let r := connectToMongo s
    let rest := runConnectCalls n r.2
    (rest.1, (if r.1 then 1 else 0) + rest.2)

/-- Model of JavaScript `s.split(',')`. -/
def jsSplitComma (s : String) : List String :=
  go s.toList []
where go : List Char → List Char → List String
  | [], acc => [String.mk acc.reverse]
  | c :: cs, acc =>
    if c = ',' then String.mk acc.reverse :: go cs [] else go cs (c :: acc)

/-- Model of JavaScript `s.trim()`. -/
def jsTrim (s : String) : String :=
  String.mk
    (((s.toList.dropWhile Char.isWhitespace).reverse.dropWhile
        Char.isWhitespace).reverse)

/-- The CORS allow-list computed from `CLIENT_URL`: split on commas, trim,
keep truthy (non-empty) entries; push the two local defaults when empty. -/
def allowedOrigins (clientUrl : String) : List String :=
  let origins :=
    ((jsSplitComma clientUrl).map jsTrim).filter
      (fun o => (JSValue.str o).truthy)
  if origins.isEmpty then
    ["http://localhost:3000", "http://localhost:5173"]
  else origins

/-! ## Generic helper lemmas -/

/-- An empty server state, used by concrete witnesses. -/
def emptyState : ServerState := { users := [], items := [], nextOid := 0, now := 0 }

theorem find?_append_single {α : Type} {p : α → Bool} {l : List α} {x : α}
    (hl : ∀ y ∈ l, p y = false) (hx : p x = true) :
    (l ++ [x]).find? p = some x := by
  rw [List.find?_append]
  have h1 : l.find? p = none := List.find?_eq_none.2 fun y hy => by simp [hl y hy]
  simp [h1, List.find?, hx]

theorem eraseP_eq_erase {α : Type} [DecidableEq α] {l : List α} {p : α → Bool}
    {u : α} (h : ∀ v ∈ l, (p v = true ↔ v = u)) : l.eraseP p = l.erase u := by
  induction l with
  | nil => rfl
  | cons a l ih =>
    rw [List.eraseP_cons, List.erase_cons]
    by_cases ha : a = u
    · subst ha
      have hpa : p a = true := (h a (by simp)).2 rfl
      simp [hpa]
    · have hpa : p a = false := by
        rcases hpa : p a
        · rfl
        · exact absurd ((h a (by simp)).1 hpa) ha
      have hbeq : (a == u) = false := by simp [ha]
      simp [hpa, hbeq, ih fun v hv => h v (by simp [hv])]

/-! ## Claims -/

/-- C3: a user-creation payload with falsy (in particular missing) `email` or
`name`, and an item-creation payload with falsy `name` or `description` or a
`price` that is not of number type, are answered 400, the state is unchanged,
and the trace is empty: validation runs before any store access and nothing
is persisted. -/
theorem creation_validation_rejects_before_store (ub : UserBody) (ib : ItemBody)
    (st : ServerState)
    (hu : ub.email.truthy = false ∨ ub.name.truthy = false)
    (hi : ib.name.truthy = false ∨ ib.description.truthy = false ∨
      ib.price.isNumber = false) :
    postApiUsers ub st = (.badRequest, st, []) ∧
    (postApiUsers ub st).1.status = 400 ∧
    postApiItems ib st = (.badRequest, st, []) ∧
    (postApiItems ib st).1.status = 400 := by
  have h1 : postApiUsers ub st = (.badRequest, st, []) := by
    rcases hu with h | h <;> simp [postApiUsers, h]
  have h2 : postApiItems ib st = (.badRequest, st, []) := by
    rcases hi with h | h | h <;> simp [postApiItems, h]
  exact ⟨h1, by rw [h1]; rfl, h2, by rw [h2]; rfl⟩

/-- C3 witness: the empty bodies (every field destructures to `undefined`)
hit the 400 path of both creation endpoints on the empty state. -/
theorem creation_validation_rejects_before_store_witness :
    postApiUsers {} emptyState = (.badRequest, emptyState, []) ∧
    (postApiUsers {} emptyState).1.status = 400 ∧
    postApiItems {} emptyState = (.badRequest, emptyState, []) ∧
    (postApiItems {} emptyState).1.status = 400 :=
  creation_validation_rejects_before_store {} {} emptyState
    (Or.inl (by decide)) (Or.inl (by decide))

/-- C4: an id path parameter that is not a syntactically valid ObjectId is
answered 400 (so never 404 or 500) by get-by-id and delete for both users and
items, with no store operation performed and the state unchanged. -/
theorem invalid_id_yields_400_no_store (id : String) (st : ServerState)
    (h : ObjectId.isValid id = false) :
    getApiUserById id st = (.badRequest, []) ∧
    (getApiUserById id st).1.status = 400 ∧
    deleteApiUserById id st = (.badRequest, st, []) ∧
    (deleteApiUserById id st).1.status = 400 ∧
    getApiItemById id st = (.badRequest, []) ∧
    (getApiItemById id st).1.status = 400 ∧
    deleteApiItemById id st = (.badRequest, st, []) ∧
    (deleteApiItemById id st).1.status = 400 := by
    simp [getApiUserById, deleteApiUserById, getApiItemById, deleteApiItemById,
      h, GetRes.status, DeleteRes.status]

/-- C4 witness: the malformed ids `"not-an-objectid"` (bad characters) and
`"abc"` (wrong length) are rejected with 400 on a concrete state. -/
theorem invalid_id_yields_400_no_store_witness :
    (getApiUserById "not-an-objectid" emptyState = (.badRequest, []) ∧
      (getApiUserById "not-an-objectid" emptyState).1.status = 400 ∧
      deleteApiUserById "not-an-objectid" emptyState =
        (.badRequest, emptyState, []) ∧
      (deleteApiUserById "not-an-objectid" emptyState).1.status = 400 ∧
      getApiItemById "not-an-objectid" emptyState = (.badRequest, []) ∧
      (getApiItemById "not-an-objectid" emptyState).1.status = 400 ∧
      deleteApiItemById "not-an-objectid" emptyState =
        (.badRequest, emptyState, []) ∧
      (deleteApiItemById "not-an-objectid" emptyState).1.status = 400) ∧
    (getApiItemById "abc" emptyState).1.status = 400 :=
  ⟨invalid_id_yields_400_no_store "not-an-objectid" emptyState (by decide),
   (invalid_id_yields_400_no_store "abc" emptyState (by decide)).2.2.2.2.2.1⟩

/-- C8: the connection guard transitions at most once from not-connected to
connected and never reverts: a call on the not-connected state invokes the
underlying client connect and sets the flag; a call on the connected state is
a no-op that leaves the flag true; any sequence of `n ≥ 1` calls starting
not-connected ends connected having invoked the client connect exactly once,
and every later call sequence performs zero further connects. -/
theorem connectToMongo_connects_at_most_once (n : Nat) (hn : 1 ≤ n) :
    connectToMongo false = (true, true) ∧
    connectToMongo true = (false, true) ∧
    (∀ s, (connectToMongo s).2 = true) ∧
    (∀ m, runConnectCalls m true = (true, 0)) ∧
    runConnectCalls n false = (true, 1) := by
  have htrue : ∀ m, runConnectCalls m true = (true, 0) := by
    intro m
    induction m with
    | zero => rfl
    | succ k ih => simp [runConnectCalls, connectToMongo, ih]
  refine ⟨rfl, rfl, fun s => by cases s <;> rfl, htrue, ?_⟩
  obtain ⟨k, rfl⟩ : ∃ k, n = k + 1 := ⟨n - 1, (Nat.succ_pred_eq_of_pos hn).symm⟩
  simp [runConnectCalls, connectToMongo, htrue k]

/-- C8 witness: three successive calls starting not-connected invoke the
underlying connect exactly once and end connected. -/
theorem connectToMongo_connects_at_most_once_witness :
    connectToMongo false = (true, true) ∧
    connectToMongo true = (false, true) ∧
    (∀ s, (connectToMongo s).2 = true) ∧
    (∀ m, runConnectCalls m true = (true, 0)) ∧
    runConnectCalls 3 false = (true, 1) :=
  connectToMongo_connects_at_most_once 3 (by decide)

/-- C9: the CORS allow-list is the comma-split, trimmed, empty-dropped form
of the configured origins string; whenever that pipeline yields the empty
list the allow-list is exactly the default pair of local development
origins. -/
theorem allowedOrigins_split_trim_default (s : String) :
    (((jsSplitComma s).map jsTrim).filter (fun o => o ≠ "") = [] →
      allowedOrigins s = ["http://localhost:3000", "http://localhost:5173"]) ∧
    (((jsSplitComma s).map jsTrim).filter (fun o => o ≠ "") ≠ [] →
      allowedOrigins s =
        ((jsSplitComma s).map jsTrim).filter (fun o => o ≠ "")) := by
  have hfilter :
      ((jsSplitComma s).map jsTrim).filter (fun o => (JSValue.str o).truthy) =
      ((jsSplitComma s).map jsTrim).filter (fun o => o ≠ "") := by
    refine List.filter_congr fun o _ => ?_
    simp only [JSValue.truthy, bne]
    by_cases h : o = "" <;> simp [h]
  have heq : allowedOrigins s =
      if (((jsSplitComma s).map jsTrim).filter
          (fun o => (JSValue.str o).truthy)).isEmpty then
        ["http://localhost:3000", "http://localhost:5173"]
      else
        ((jsSplitComma s).map jsTrim).filter
          (fun o => (JSValue.str o).truthy) := rfl
  constructor
  · intro h
    rw [heq, hfilter, if_pos (by simpa [List.isEmpty_iff] using h)]
  · intro h
    rw [heq, hfilter, if_neg (by simpa [List.isEmpty_iff] using h)]

/-- C9 witness: a configured string of only separators and blanks falls back
to the default pair, and a two-origin string is split, trimmed and kept. -/
theorem allowedOrigins_split_trim_default_witness :
    allowedOrigins " , ,  " =
      ["http://localhost:3000", "http://localhost:5173"] ∧
    allowedOrigins "https://a.example, https://b.example" =
      ((jsSplitComma "https://a.example, https://b.example").map
        jsTrim).filter (fun o => o ≠ "") :=
  ⟨(allowedOrigins_split_trim_default " , ,  ").1 (by decide),
   (allowedOrigins_split_trim_default
      "https://a.example, https://b.example").2 (by decide)⟩

/-- C5: for every store state the users list is ordered by descending
`createdAt` and uncapped (a permutation of all user records), and the items
list is ordered by descending `createdAt`, never exceeds 100 records, and is
a permutation of all item records whenever at most 100 exist. -/
theorem list_endpoints_sorted_capped (st : ServerState) :
    ((getApiUsers st).1.Pairwise fun a b => b.createdAt ≤ a.createdAt) ∧
    (getApiUsers st).1.Perm st.users ∧
    ((getApiItems st).1.Pairwise fun a b => b.createdAt ≤ a.createdAt) ∧
    (getApiItems st).1.length ≤ 100 ∧
    (st.items.length ≤ 100 → (getApiItems st).1.Perm st.items) := by
  have hu : (st.users.mergeSort userDesc).Pairwise
      fun a b => userDesc a b = true :=
    List.sorted_mergeSort
      (fun a b c hab hbc => by
        simp only [userDesc, decide_eq_true_eq] at *; omega)
      (fun a b => by simp [userDesc, Nat.le_total]) st.users
  have hi : (st.items.mergeSort itemDesc).Pairwise
      fun a b => itemDesc a b = true :=
    List.sorted_mergeSort
      (fun a b c hab hbc => by
        simp only [itemDesc, decide_eq_true_eq] at *; omega)
      (fun a b => by simp [itemDesc, Nat.le_total]) st.items
  refine ⟨?_, ?_, ?_, ?_, ?_⟩
  · exact hu.imp fun h => by simpa [userDesc] using h
  · exact List.mergeSort_perm st.users userDesc
  · exact List.Pairwise.sublist (List.take_sublist 100 _)
      (hi.imp fun h => by simpa [itemDesc] using h)
  · simp only [getApiItems, List.length_take]
    exact Nat.min_le_left 100 (st.items.mergeSort itemDesc).length
  · intro hle
    have hlen : (st.items.mergeSort itemDesc).length = st.items.length :=
      (List.mergeSort_perm st.items itemDesc).length_eq
    have : (getApiItems st).1 = st.items.mergeSort itemDesc := by
      simp only [getApiItems]
      exact List.take_of_length_le (by omega)
    rw [this]
    exact List.mergeSort_perm st.items itemDesc

/-- Concrete fixtures used by the witnesses. -/
def userA : StoredUser :=
  { _id := "000000000000000000000000", email := .str "a@x.y",
    name := .str "A", role := .str "staff", createdAt := 0 }

def userB : StoredUser :=
  { _id := "000000000000000000000001", email := .str "b@x.y",
    name := .str "B", role := .str "admin", createdAt := 1 }

def itemT : StoredItem :=
  { _id := "000000000000000000000002", name := .str "T",
    description := .str "D", price := 1, category := .str "C",
    image := .str "", badge := .null, badgeColor := .null,
    isLarge := false, tags := [], createdAt := 0 }

def sampleState : ServerState :=
  { users := [userA, userB], items := [itemT], nextOid := 3, now := 2 }

/-- C5 witness: the list endpoints applied to a concrete two-user, one-item
state, including the below-cap permutation conjunct. -/
theorem list_endpoints_sorted_capped_witness :
    (((getApiUsers sampleState).1.Pairwise
        fun a b => b.createdAt ≤ a.createdAt) ∧
      (getApiUsers sampleState).1.Perm sampleState.users ∧
      ((getApiItems sampleState).1.Pairwise
        fun a b => b.createdAt ≤ a.createdAt) ∧
      (getApiItems sampleState).1.length ≤ 100 ∧
      (sampleState.items.length ≤ 100 →
        (getApiItems sampleState).1.Perm sampleState.items)) ∧
    (getApiItems sampleState).1.Perm sampleState.items :=
  ⟨list_endpoints_sorted_capped sampleState,
   (list_endpoints_sorted_capped sampleState).2.2.2.2 (by decide)⟩

/-- C2: creating a user, then creating a second user with the same truthy
email against a store that previously had no record with that email, yields
201 then 409; the 409 call leaves the state untouched and its trace contains
no insert; afterwards exactly one stored user carries that email. -/
theorem postApiUsers_duplicate_email_conflict (e n1 n2 r1 r2 : JSValue)
    (st : ServerState)
    (he : e.truthy = true) (hn1 : n1.truthy = true) (hn2 : n2.truthy = true)
    (hfresh : ∀ u ∈ st.users, u.email ≠ e) :
    ∃ u st1,
      postApiUsers { email := e, name := n1, role := r1 } st =
        (.created u, st1, [.userFindByEmail e, .userInsert u]) ∧
      (UserCreateRes.created u).status = 201 ∧
      u.email = e ∧
      postApiUsers { email := e, name := n2, role := r2 } st1 =
        (.conflict, st1, [.userFindByEmail e]) ∧
      UserCreateRes.conflict.status = 409 ∧
      (∀ v : StoredUser, StoreOp.userInsert v ∉ [StoreOp.userFindByEmail e]) ∧
      (st1.users.filter fun u' => u'.email = e).length = 1 := by
  have hfind : st.users.find? (fun u => u.email = e) = none :=
    List.find?_eq_none.2 fun u hu => by simp [hfresh u hu]
  set u : StoredUser :=
    { _id := ObjectId.hex24 st.nextOid, email := e, name := n1,
      role := if r1.truthy then r1 else .str "staff",
      createdAt := st.now } with hu_def
  set st1 : ServerState :=
    { st with
      users := st.users ++ [u],
      nextOid := st.nextOid + 1, now := st.now + 1 } with hst1_def
  refine ⟨u, st1, ?_, rfl, rfl, ?_, rfl, by simp, ?_⟩
  · simp [postApiUsers, he, hn1, hfind]
  · have hfind2 : (st.users ++ [u]).find? (fun v => v.email = e) = some u :=
      find?_append_single (fun y hy => by simp [hfresh y hy])
        (by simp [hu_def])
    simp [postApiUsers, he, hn2, hst1_def, hfind2]
  · have h0 : st.users.filter (fun u' => u'.email = e) = [] :=
      List.filter_eq_nil_iff.2 fun v hv => by simp [hfresh v hv]
    simp [hst1_def, List.filter_append, h0, hu_def]

/-- C2 witness: two creations with email `"a@b.c"` on the empty store. -/
theorem postApiUsers_duplicate_email_conflict_witness :
    ∃ u st1,
      postApiUsers
        { email := .str "a@b.c", name := .str "Al",
          role := .undefined } emptyState =
        (.created u, st1, [.userFindByEmail (.str "a@b.c"), .userInsert u]) ∧
      (UserCreateRes.created u).status = 201 ∧
      u.email = .str "a@b.c" ∧
      postApiUsers
        { email := .str "a@b.c", name := .str "Bo",
          role := .undefined } st1 =
        (.conflict, st1, [.userFindByEmail (.str "a@b.c")]) ∧
      UserCreateRes.conflict.status = 409 ∧
      (∀ v : StoredUser,
        StoreOp.userInsert v ∉ [StoreOp.userFindByEmail (.str "a@b.c")]) ∧
      (st1.users.filter fun u' => u'.email = .str "a@b.c").length = 1 :=
  postApiUsers_duplicate_email_conflict (.str "a@b.c") (.str "Al") (.str "Bo")
    .undefined .undefined emptyState (by decide) (by decide) (by decide)
    (by simp [emptyState])

/-- C10: optional-field defaulting applies to every falsy supplied value, not
only to absent fields: a created user whose supplied `role` is falsy is
stored with role `"staff"`, and a created item whose supplied `category`,
`image`, `badge`, `badgeColor` are falsy gets `"Uncategorized"`, `""`,
`null`, `null` respectively. -/
theorem falsy_optional_fields_defaulted (ub : UserBody) (ib : ItemBody)
    (st st2 : ServerState)
    (hrole : ub.role.truthy = false)
    (hcat : ib.category.truthy = false) (himg : ib.image.truthy = false)
    (hbadge : ib.badge.truthy = false) (hbc : ib.badgeColor.truthy = false) :
    (∀ u, (postApiUsers ub st).1 = .created u → u.role = .str "staff") ∧
    (∀ d, (postApiItems ib st2).1 = .created d →
      d.category = .str "Uncategorized" ∧ d.image = .str "" ∧
      d.badge = .null ∧ d.badgeColor = .null) := by
  constructor
  · intro u hc
    by_cases hval : (!ub.email.truthy || !ub.name.truthy) = true
    · simp [postApiUsers, hval] at hc
    · have hval' := eq_false_of_ne_true hval
      simp only [postApiUsers, hval', Bool.false_eq_true, if_false] at hc
      rcases hfind : st.users.find? (fun v => v.email = ub.email) with - | v
      · rw [hfind] at hc
        simp only [UserCreateRes.created.injEq] at hc
        rw [← hc]
        simp [hrole]
      · rw [hfind] at hc
        simp at hc
  · intro d hc
    by_cases hval : (!ib.name.truthy || !ib.description.truthy ||
        !ib.price.isNumber) = true
    · simp [postApiItems, hval] at hc
    · have hval' := eq_false_of_ne_true hval
      simp only [postApiItems, hval', Bool.false_eq_true, if_false,
        ItemCreateRes.created.injEq] at hc
      rw [← hc]
      refine ⟨by simp [hcat], by simp [himg], by simp [hbadge], by simp [hbc]⟩

/-- C10 witness: a user created with `role := ""` and an item created with
falsy `category`, `image`, `badge`, `badgeColor` (`""`, `0`, `null`,
`false`) on the empty store. -/
theorem falsy_optional_fields_defaulted_witness :
    (∀ u, (postApiUsers
        { email := .str "a@b.c", name := .str "Al",
          role := .str "" } emptyState).1 = .created u →
      u.role = .str "staff") ∧
    (∀ d, (postApiItems
        { name := .str "T", description := .str "D",
          price := .num 1, category := .str "", image := .num 0,
          badge := .null, badgeColor := .bool false, isLarge := .undefined,
          tags := .undefined } emptyState).1 = .created d →
      d.category = .str "Uncategorized" ∧ d.image = .str "" ∧
      d.badge = .null ∧ d.badgeColor = .null) :=
  falsy_optional_fields_defaulted
    { email := .str "a@b.c", name := .str "Al", role := .str "" }
    { name := .str "T", description := .str "D", price := .num 1,
      category := .str "", image := .num 0, badge := .null,
      badgeColor := .bool false, isLarge := .undefined, tags := .undefined }
    emptyState emptyState (by decide) (by decide) (by decide) (by decide)
    (by decide)

/-- C7: posting the item `{name:"Tacos", description:"Corn tortilla",
price:8.5}` yields 201 with `category:"Uncategorized"`, `tags:[]`,
`isLarge:false`, `image:""`, `badge:null`, `badgeColor:null`, on every store
state; and any created item whose submitted `tags` is not an array is stored
with the empty tag sequence. -/
theorem postApiItems_tacos_defaults (st : ServerState) :
    (∃ d st',
      postApiItems
        { name := .str "Tacos", description := .str "Corn tortilla",
          price := .num (17 / 2) } st = (.created d, st', [.itemInsert d]) ∧
      (ItemCreateRes.created d).status = 201 ∧
      d.category = .str "Uncategorized" ∧ d.tags = [] ∧ d.isLarge = false ∧
      d.image = .str "" ∧ d.badge = .null ∧ d.badgeColor = .null) ∧
    (∀ (body : ItemBody) (st2 : ServerState) (d : StoredItem),
      body.tags.isArray = false → (postApiItems body st2).1 = .created d →
      d.tags = []) := by
  constructor
  · exact ⟨_, _, rfl, rfl, rfl, rfl, rfl, rfl, rfl, rfl⟩
  · intro body st2 d htags hc
    by_cases hval : (!body.name.truthy || !body.description.truthy ||
        !body.price.isNumber) = true
    · simp [postApiItems, hval] at hc
    · have hval' := eq_false_of_ne_true hval
      simp only [postApiItems, hval', Bool.false_eq_true, if_false,
        ItemCreateRes.created.injEq] at hc
      rw [← hc]
      cases h : body.tags <;> simp [JSValue.arrOrEmpty]
      rw [h] at htags
      simp [JSValue.isArray] at htags

/-- C7 witness: the scenario on the empty store, plus a non-array `tags`
input (`tags := "x"`) stored as the empty sequence. -/
theorem postApiItems_tacos_defaults_witness :
    (∃ d st',
      postApiItems
        { name := .str "Tacos", description := .str "Corn tortilla",
          price := .num (17 / 2) } emptyState =
        (.created d, st', [.itemInsert d]) ∧
      (ItemCreateRes.created d).status = 201 ∧
      d.category = .str "Uncategorized" ∧ d.tags = [] ∧ d.isLarge = false ∧
      d.image = .str "" ∧ d.badge = .null ∧ d.badgeColor = .null) ∧
    (∀ d : StoredItem,
      (postApiItems
        { name := .str "T", description := .str "D", price := .num 1,
          tags := .str "x" } emptyState).1 = .created d → d.tags = []) :=
  ⟨(postApiItems_tacos_defaults emptyState).1,
   fun d => (postApiItems_tacos_defaults emptyState).2
     { name := .str "T", description := .str "D", price := .num 1,
       tags := .str "x" } emptyState d (by decide)⟩

/-- C6: with a syntactically valid id, deleting a nonexistent user or item
answers 404 and leaves the state untouched, while deleting an existing one
(ids being unique in the store) answers 200 with the success message and the
deleted id, removes exactly that record, and a subsequent get-by-id on the
same id answers 404. -/
theorem delete_then_get_spec (id : String) (st : ServerState)
    (hvalid : ObjectId.isValid id = true) :
    ((∀ u ∈ st.users, u._id ≠ ObjectId.norm id) →
      deleteApiUserById id st =
        (.notFound, st, [.userDeleteById (ObjectId.norm id)]) ∧
      DeleteRes.notFound.status = 404) ∧
    (∀ u, u ∈ st.users → u._id = ObjectId.norm id →
      (st.users.map (fun v => v._id)).Nodup →
      ∃ st',
        deleteApiUserById id st =
          (.ok "User deleted successfully" id, st',
            [.userDeleteById (ObjectId.norm id)]) ∧
        (DeleteRes.ok "User deleted successfully" id).status = 200 ∧
        st'.users = st.users.erase u ∧
        st'.items = st.items ∧
        getApiUserById id st' =
          (.notFound, [.userFindById (ObjectId.norm id)]) ∧
        (GetRes.notFound : GetRes StoredUser).status = 404) ∧
    ((∀ d ∈ st.items, d._id ≠ ObjectId.norm id) →
      deleteApiItemById id st =
        (.notFound, st, [.itemDeleteById (ObjectId.norm id)]) ∧
      DeleteRes.notFound.status = 404) ∧
    (∀ d, d ∈ st.items → d._id = ObjectId.norm id →
      (st.items.map (fun v => v._id)).Nodup →
      ∃ st',
        deleteApiItemById id st =
          (.ok "Item deleted successfully" id, st',
            [.itemDeleteById (ObjectId.norm id)]) ∧
        (DeleteRes.ok "Item deleted successfully" id).status = 200 ∧
        st'.items = st.items.erase d ∧
        st'.users = st.users ∧
        getApiItemById id st' =
          (.notFound, [.itemFindById (ObjectId.norm id)]) ∧
        (GetRes.notFound : GetRes StoredItem).status = 404) := by
  refine ⟨?_, ?_, ?_, ?_⟩
  · intro h
    have hany : st.users.any (fun u => u._id = ObjectId.norm id) = false := by
      rw [List.any_eq_false]
      intro u hu
      simp [h u hu]
    exact ⟨by simp [deleteApiUserById, hvalid, hany], rfl⟩
  · intro u hu hid hnodup
    have hiff : ∀ v ∈ st.users,
        (decide (v._id = ObjectId.norm id) = true ↔ v = u) := by
      intro v hv
      simp only [decide_eq_true_eq]
      exact ⟨fun h => List.inj_on_of_nodup_map hnodup hv hu (h.trans hid.symm),
        fun h => h ▸ hid⟩
    have hany : st.users.any (fun v => v._id = ObjectId.norm id) = true := by
      rw [List.any_eq_true]
      exact ⟨u, hu, by simp [hid]⟩
    have hnodupU : st.users.Nodup := List.Nodup.of_map _ hnodup
    have herase : st.users.eraseP (fun v => v._id = ObjectId.norm id) =
        st.users.erase u := eraseP_eq_erase hiff
    have hnone : (st.users.erase u).find?
        (fun v => v._id = ObjectId.norm id) = none := by
      rw [List.find?_eq_none]
      intro v hv
      have hv' := (List.Nodup.mem_erase_iff hnodupU).1 hv
      simp only [decide_eq_true_eq]
      intro heq
      exact hv'.1 ((hiff v hv'.2).1 (by simp [heq]))
    refine ⟨{ st with users := st.users.erase u }, ?_, rfl, rfl, rfl, ?_, rfl⟩
    · simp [deleteApiUserById, hvalid, hany, herase]
    · simp [getApiUserById, hvalid, hnone]
  · intro h
    have hany : st.items.any (fun d => d._id = ObjectId.norm id) = false := by
      rw [List.any_eq_false]
      intro d hd
      simp [h d hd]
    exact ⟨by simp [deleteApiItemById, hvalid, hany], rfl⟩
  · intro d hd hid hnodup
    have hiff : ∀ v ∈ st.items,
        (decide (v._id = ObjectId.norm id) = true ↔ v = d) := by
      intro v hv
      simp only [decide_eq_true_eq]
      exact ⟨fun h => List.inj_on_of_nodup_map hnodup hv hd (h.trans hid.symm),
        fun h => h ▸ hid⟩
    have hany : st.items.any (fun v => v._id = ObjectId.norm id) = true := by
      rw [List.any_eq_true]
      exact ⟨d, hd, by simp [hid]⟩
    have hnodupI : st.items.Nodup := List.Nodup.of_map _ hnodup
    have herase : st.items.eraseP (fun v => v._id = ObjectId.norm id) =
        st.items.erase d := eraseP_eq_erase hiff
    have hnone : (st.items.erase d).find?
        (fun v => v._id = ObjectId.norm id) = none := by
      rw [List.find?_eq_none]
      intro v hv
      have hv' := (List.Nodup.mem_erase_iff hnodupI).1 hv
      simp only [decide_eq_true_eq]
      intro heq
      exact hv'.1 ((hiff v hv'.2).1 (by simp [heq]))
    refine ⟨{ st with items := st.items.erase d }, ?_, rfl, rfl, rfl, ?_, rfl⟩
    · simp [deleteApiItemById, hvalid, hany, herase]
    · simp [getApiItemById, hvalid, hnone]

/-- C6 witness: deleting the existing user `userA` from the concrete sample
state answers 200, removes exactly that record, and a get on the same id
then answers 404. -/
theorem delete_then_get_spec_witness :
    ∃ st',
      deleteApiUserById "000000000000000000000000" sampleState =
        (.ok "User deleted successfully" "000000000000000000000000", st',
          [.userDeleteById (ObjectId.norm "000000000000000000000000")]) ∧
      (DeleteRes.ok "User deleted successfully"
        "000000000000000000000000").status = 200 ∧
      st'.users = sampleState.users.erase userA ∧
      st'.items = sampleState.items ∧
      getApiUserById "000000000000000000000000" st' =
        (.notFound, [.userFindById (ObjectId.norm "000000000000000000000000")]) ∧
      (GetRes.notFound : GetRes StoredUser).status = 404 :=
  (delete_then_get_spec "000000000000000000000000" sampleState
    (by decide)).2.1 userA (by simp [sampleState]) (by decide) (by decide)

/-- C1 counterexample: the payload `{name:"a", description:"b", price:1,
category:""}` is valid in the claim's sense (truthy name and description,
numeric price), yet the 201 response does not echo the submitted `category`
field: the empty string is replaced by `"Uncategorized"`.  So the response
does not echo every submitted field. -/
theorem postApiItems_echo_counterexample :
    (JSValue.str "a").truthy = true ∧ (JSValue.str "b").truthy = true ∧
    (JSValue.num 1).isNumber = true ∧
    ∃ d st',
      postApiItems
        { name := .str "a", description := .str "b", price := .num 1,
          category := .str "" } emptyState =
        (.created d, st', [.itemInsert d]) ∧
      d.category ≠ .str "" :=
  ⟨rfl, rfl, rfl, _, _, rfl, by decide⟩

/-- C1 (amended): for every valid item-creation payload each of whose
supplied optional fields is stored verbatim (truthy `category`, `image`,
`badge`, `badgeColor`; boolean `isLarge`; array `tags`), the 201 response
echoes every submitted field, carries the server-assigned id and
`createdAt`, and a subsequent get-by-id with the assigned id (fresh in the
store) returns the identical record. -/
theorem postApiItems_create_then_get (body : ItemBody) (st : ServerState)
    (hname : body.name.truthy = true)
    (hdesc : body.description.truthy = true)
    (hprice : body.price.isNumber = true)
    (hcat : body.category = .undefined ∨ body.category.truthy = true)
    (himage : body.image = .undefined ∨ body.image.truthy = true)
    (hbadge : body.badge = .undefined ∨ body.badge.truthy = true)
    (hbcol : body.badgeColor = .undefined ∨ body.badgeColor.truthy = true)
    (hlarge : body.isLarge = .undefined ∨ (∃ b, body.isLarge = .bool b))
    (htags : body.tags = .undefined ∨ body.tags.isArray = true)
    (hfresh : ∀ d ∈ st.items, d._id ≠ ObjectId.hex24 st.nextOid) :
    ∃ d st',
      postApiItems body st = (.created d, st', [.itemInsert d]) ∧
      (ItemCreateRes.created d).status = 201 ∧
      d.name = body.name ∧
      d.description = body.description ∧
      JSValue.num d.price = body.price ∧
      (body.category ≠ .undefined → d.category = body.category) ∧
      (body.image ≠ .undefined → d.image = body.image) ∧
      (body.badge ≠ .undefined → d.badge = body.badge) ∧
      (body.badgeColor ≠ .undefined → d.badgeColor = body.badgeColor) ∧
      (body.isLarge ≠ .undefined → JSValue.bool d.isLarge = body.isLarge) ∧
      (body.tags ≠ .undefined → JSValue.arr d.tags = body.tags) ∧
      d._id = ObjectId.hex24 st.nextOid ∧
      d.createdAt = st.now ∧
      getApiItemById d._id st' = (.ok d, [.itemFindById d._id]) := by
  obtain ⟨p, hp⟩ : ∃ p, body.price = JSValue.num p := by
    revert hprice
    cases body.price <;> simp [JSValue.isNumber]
  have hval : (!body.name.truthy || !body.description.truthy ||
      !body.price.isNumber) = false := by
    simp [hname, hdesc, hprice]
  refine ⟨
    { _id := ObjectId.hex24 st.nextOid, name := body.name,
      description := body.description, price := body.price.getNum,
      category := if body.category.truthy then body.category
                  else .str "Uncategorized",
      image := if body.image.truthy then body.image else .str "",
      badge := if body.badge.truthy then body.badge else .null,
      badgeColor := if body.badgeColor.truthy then body.badgeColor
                    else .null,
      isLarge := body.isLarge.truthy,
      tags := body.tags.arrOrEmpty,
      createdAt := st.now },
    { st with
      items := st.items ++
        [{ _id := ObjectId.hex24 st.nextOid, name := body.name,
           description := body.description, price := body.price.getNum,
           category := if body.category.truthy then body.category
                       else .str "Uncategorized",
           image := if body.image.truthy then body.image else .str "",
           badge := if body.badge.truthy then body.badge else .null,
           badgeColor := if body.badgeColor.truthy then body.badgeColor
                         else .null,
           isLarge := body.isLarge.truthy,
           tags := body.tags.arrOrEmpty,
           createdAt := st.now }],
      nextOid := st.nextOid + 1, now := st.now + 1 },
    ?_, rfl, rfl, rfl, ?_, ?_, ?_, ?_, ?_, ?_, ?_, rfl, rfl, ?_⟩
  · simp only [postApiItems, hval, Bool.false_eq_true, if_false]
  · rw [hp]
    rfl
  · intro hne
    rcases hcat with h | h
    · exact absurd h hne
    · simp [h]
  · intro hne
    rcases himage with h | h
    · exact absurd h hne
    · simp [h]
  · intro hne
    rcases hbadge with h | h
    · exact absurd h hne
    · simp [h]
  · intro hne
    rcases hbcol with h | h
    · exact absurd h hne
    · simp [h]
  · intro hne
    rcases hlarge with h | ⟨b, hb⟩
    · exact absurd h hne
    · rw [hb]
      rfl
  · intro hne
    rcases htags with h | h
    · exact absurd h hne
    · rcases hb : body.tags with - | - | b | q | s | xs <;>
        first
          | rfl
          | (rw [hb] at h; exact Bool.noConfusion h)
  · have hvalid24 := ObjectId.isValid_hex24 st.nextOid
    have h1 : st.items.find?
        (fun v : StoredItem => v._id = ObjectId.hex24 st.nextOid) = none :=
      List.find?_eq_none.2 fun y hy => by simp [hfresh y hy]
    simp [getApiItemById, hvalid24, ObjectId.norm_hex24, h1]

/-- C1 witness: a fully supplied payload (all optional fields truthy, boolean
`isLarge`, array `tags`) created on the empty store is echoed in full and
readable back under its assigned id. -/
theorem postApiItems_create_then_get_witness :
    ∃ d st',
      postApiItems
        { name := .str "Burrito", description := .str "Wrap",
          price := .num 12, category := .str "Mains",
          image := .str "img.png", badge := .str "New",
          badgeColor := .str "red", isLarge := .bool true,
          tags := .arr [.str "veg"] } emptyState =
        (.created d, st', [.itemInsert d]) ∧
      (ItemCreateRes.created d).status = 201 ∧
      d.name = .str "Burrito" ∧
      d.description = .str "Wrap" ∧
      JSValue.num d.price = .num 12 ∧
      ((JSValue.str "Mains") ≠ .undefined → d.category = .str "Mains") ∧
      ((JSValue.str "img.png") ≠ .undefined → d.image = .str "img.png") ∧
      ((JSValue.str "New") ≠ .undefined → d.badge = .str "New") ∧
      ((JSValue.str "red") ≠ .undefined → d.badgeColor = .str "red") ∧
      ((JSValue.bool true) ≠ .undefined →
        JSValue.bool d.isLarge = .bool true) ∧
      ((JSValue.arr [.str "veg"]) ≠ .undefined →
        JSValue.arr d.tags = .arr [.str "veg"]) ∧
      d._id = ObjectId.hex24 emptyState.nextOid ∧
      d.createdAt = emptyState.now ∧
      getApiItemById d._id st' = (.ok d, [.itemFindById d._id]) :=
  postApiItems_create_then_get
    { name := .str "Burrito", description := .str "Wrap",
      price := .num 12, category := .str "Mains", image := .str "img.png",
      badge := .str "New", badgeColor := .str "red", isLarge := .bool true,
      tags := .arr [.str "veg"] } emptyState
    (by decide) (by decide) (by decide) (by decide) (by decide) (by decide)
    (by decide) (Or.inr ⟨true, rfl⟩) (Or.inr rfl) (by simp [emptyState])
